import Mathlib

/-!
Shallow embedding of `src/firebase_service.py` (module `FirebaseService` of the
ACDINX repository): a singleton connection manager over a remote document
store, with `initialize`, a context-managed `get_collection`, and the
document operations `set_document`, `get_document`, `update_document`.

Python dynamic values are embedded as small inductive types; the remote
Firestore client is embedded as an explicit store state carrying an optional
provider-error oracle (a pending provider-side exception); Python exceptions
raised across the embedded code are values of `PyExn` in an `Except`, and the
top-level methods, whose bodies catch every exception, return plain
Lean values together with the list of emitted log entries.
-/

set_option autoImplicit false

namespace ACDINX

/-- A JSON-style scalar value stored in a document field. -/
inductive JValue where
  | jstr : String → JValue
  | jnum : Int → JValue
  | jbool : Bool → JValue
  | jnull : JValue
deriving DecidableEq

/-- A Python dict with string keys, as an association list (first key wins). -/
abbrev Dict := List (String × JValue)

/-- First-match association-list lookup, used for dicts, the document store
and the model filesystem. -/
def lookupKV {κ α : Type} [DecidableEq κ] : List (κ × α) → κ → Option α
  | [], _ => none
  | (k, v) :: rest, key => if key = k then some v else lookupKV rest key

/-- Log levels of the `logging` module as used by the source. -/
inductive LogLevel where
  | info
  | warning
  | error
deriving DecidableEq

/-- One emitted log line. -/
structure LogEntry where
  level : LogLevel
  msg : String
deriving DecidableEq

/-- A provider-side exception: `FirebaseError` or any other exception raised
by the Firestore client (the source catches both the same way in the
document operations and re-raises both from `get_collection`). -/
inductive ProviderErr where
  | firebaseErr : String → ProviderErr
  | genericErr : String → ProviderErr
deriving DecidableEq

/-- A Python exception crossing a boundary of the embedded code: the
`RuntimeError` and `ValueError` raised by `get_collection`, or a provider
exception propagating out of a client call. -/
inductive PyExn where
  | runtimeError : String → PyExn
  | valueError : String → PyExn
  | provider : ProviderErr → PyExn
deriving DecidableEq

/-- The remote Firestore state as seen through the client handle: the
documents, keyed by (collection name, document id), plus an oracle
recording whether the provider raises on the next operations. -/
structure Firestore where
  docs : List ((String × String) × Dict)
  err : Option ProviderErr
deriving DecidableEq

/-- Writing a document replaces its payload in full (replace semantics of
`DocumentReference.set`). -/
def storeInsert (docs : List ((String × String) × Dict)) (key : String × String)
    (d : Dict) : List ((String × String) × Dict) :=
  (key, d) :: docs

/-- The provider call `collection.document(id).set(data)`: raises the pending
provider error if the oracle holds one, otherwise overwrites the document. -/
def Firestore.docSet (fs : Firestore) (c d : String) (data : Dict) :
    Except ProviderErr Firestore :=
  match fs.err with
  | some e => .error e
  | none => .ok { fs with docs := storeInsert fs.docs (c, d) data }

/-- The provider call `collection.document(id).get()` followed by the
`doc.exists` / `doc.to_dict()` inspection: raises the pending provider error
if the oracle holds one, otherwise returns the payload when present. -/
def Firestore.docGet (fs : Firestore) (c d : String) :
    Except ProviderErr (Option Dict) :=
  match fs.err with
  | some e => .error e
  | none => .ok (lookupKV fs.docs (c, d))

/-- A Python value passed where a collection name (a `str`) is expected:
either an actual string or a non-string value of which only the truthiness
matters to the source's checks. -/
inductive PyName where
  | pstr : String → PyName
  | nonStr : Bool → PyName
deriving DecidableEq

def PyName.truthy : PyName → Bool
  | .pstr s => !s.isEmpty
  | .nonStr t => t

def PyName.isStr : PyName → Bool
  | .pstr _ => true
  | .nonStr _ => false

/-- A Python value passed where a `dict` is expected: either an actual dict
or a non-dict value of which only the truthiness matters. -/
inductive PyData where
  | pdict : Dict → PyData
  | nonDict : Bool → PyData
deriving DecidableEq

def PyData.truthy : PyData → Bool
  | .pdict d => !d.isEmpty
  | .nonDict t => t

def PyData.isDict : PyData → Bool
  | .pdict _ => true
  | .nonDict _ => false

def PyData.asDict : PyData → Dict
  | .pdict d => d
  | .nonDict _ => []

/-- The per-instance state of the `FirebaseService` object: `self.db`,
`self.initialized` and `self._service_account_path`, as set by `__init__`
and `initialize`. -/
structure FirebaseService where
  db : Option Firestore
  initialized : Bool
  service_account_path : Option String
deriving DecidableEq

/-- Contents of a file at a credentials path, as far as `json.load` is
concerned: either text that fails to parse (raising `JSONDecodeError`) or a
parsed top-level JSON object. -/
inductive FileContent where
  | malformed : FileContent
  | parsed : Dict → FileContent
deriving DecidableEq

/-- The environment `initialize` runs against: the filesystem (path to
content, plus which existing paths are unreadable by `os.access`), and the
provider side of `credentials.Certificate` / `firebase_admin.initialize_app`
/ `firestore.client` — `connectOk` tells whether that call chain succeeds,
and `connStore` is the client state it yields when it does. -/
structure Env where
  files : List (String × FileContent)
  unreadable : List String
  connectOk : Bool
  connStore : Firestore
deriving DecidableEq

/-- The eight required top-level fields of the service-account file. -/
def required_fields : List String :=
  ["type", "project_id", "private_key_id", "private_key",
   "client_email", "client_id", "auth_uri", "token_uri"]

/-- Embeds `FirebaseService.initialize` (the name is shortened for Lean):
existence check, readability check, `json.load`, required-field loop, then
the provider connection calls; every failure is caught and turned into
`False` plus an error log, success stores the client handle and sets the
flag. -/
def FirebaseService.initConn (svc : FirebaseService) (env : Env)
    (path : String) : FirebaseService × Bool × List LogEntry :=
  match lookupKV env.files path with
  | none =>
      (svc, false, [⟨.error, "Service account file not found: " ++ path⟩])
  | some content =>
      if path ∈ env.unreadable then
        (svc, false, [⟨.error, "Service account file not readable: " ++ path⟩])
      else
        match content with
        | .malformed =>
            (svc, false, [⟨.error, "Invalid JSON in service account file"⟩])
        | .parsed service_account =>
            match required_fields.find?
                (fun f => (lookupKV service_account f).isNone) with
            | some f =>
                (svc, false,
                 [⟨.error, "Missing required field in service account: " ++ f⟩])
            | none =>
                if env.connectOk then
                  ({ db := some env.connStore, initialized := true,
                     service_account_path := some path }, true,
                   [⟨.info, "Firebase initialized successfully"⟩])
                else
                  (svc, false, [⟨.error, "Firebase initialization error"⟩])

/-- Embeds the context manager `FirebaseService.get_collection`, applied to
the body of a `with` block: raises `RuntimeError` when not initialized or
the handle is `None`, raises `ValueError` on an empty or non-string
collection name, and otherwise runs the body on the client state; a provider
error raised by the body is logged and re-raised. -/
def FirebaseService.get_collection {α : Type} (svc : FirebaseService)
    (collection_name : PyName) (body : Firestore → String → Except ProviderErr α) :
    Except PyExn α × List LogEntry :=
  match svc.db with
  | none =>
      (.error (.runtimeError "Firebase not initialized. Call initialize() first."), [])
  | some fs =>
      if !svc.initialized then
        (.error (.runtimeError "Firebase not initialized. Call initialize() first."), [])
      else
        match collection_name with
        | .nonStr _ =>
            (.error (.valueError "collection_name must be a non-empty string"), [])
        | .pstr s =>
            if s.isEmpty then
              (.error (.valueError "collection_name must be a non-empty string"), [])
            else
              match body fs s with
              | .ok a => (.ok a, [])
              | .error e =>
                  (.error (.provider e),
                   [⟨.error, "Error accessing collection " ++ s⟩])

/-- Embeds `FirebaseService.set_document`: initialized check, non-empty-dict
check, then `get_collection` around `collection.document(id).set(data)`;
any exception from the `with` block is caught and turned into `False`. -/
def FirebaseService.set_document (svc : FirebaseService)
    (collection_name : PyName) (document_id : String) (data : PyData) :
    FirebaseService × Bool × List LogEntry :=
  if !svc.initialized then
    (svc, false, [⟨.error, "Firebase not initialized"⟩])
  else if !data.truthy || !data.isDict then
    (svc, false, [⟨.error, "Data must be a non-empty dictionary"⟩])
  else
    match FirebaseService.get_collection svc collection_name
        (fun fs s => Firestore.docSet fs s document_id data.asDict) with
    | (.ok fs2, logs) =>
        ({ svc with db := some fs2 }, true,
         logs ++ [⟨.info, "Document " ++ document_id ++ " set"⟩])
    | (.error _, logs) =>
        (svc, false,
         logs ++ [⟨.error, "Failed to set document " ++ document_id⟩])

/-- Embeds `FirebaseService.get_document`: initialized check, then
`get_collection` around `collection.document(id).get()`; a missing document
yields `None` with a warning, any exception yields `None` with an error. -/
def FirebaseService.get_document (svc : FirebaseService)
    (collection_name : PyName) (document_id : String) :
    Option Dict × List LogEntry :=
  if !svc.initialized then
    (none, [⟨.error, "Firebase not initialized"⟩])
  else
    match FirebaseService.get_collection svc collection_name
        (fun fs s => Firestore.docGet fs s document_id) with
    | (.ok (some d), logs) => (some d, logs)
    | (.ok none, logs) =>
        (none, logs ++ [⟨.warning, "Document " ++ document_id ++ " not found"⟩])
    | (.error _, logs) =>
        (none, logs ++ [⟨.error, "Failed to get document " ++ document_id⟩])

/-- Merge an update mapping into an existing payload: every field named in
`updates` takes its new value, every other field of `d` is preserved. -/
def mergeUpdate (d updates : Dict) : Dict :=
  updates ++ d.filter (fun kv => (lookupKV updates kv.1).isNone)

/-- Modelled from the spec: the body of `update_document` is truncated in the
available source (the file ends inside its docstring), so the provider call
`collection.document(id).update(updates)` is modelled from the spec's words:
a partial update with merge semantics that preserves fields not named in
`updates`, and a provider error when the document does not exist (the
documented behaviour of the Firestore update call). -/
def Firestore.docUpdate (fs : Firestore) (c d : String) (updates : Dict) :
    Except ProviderErr Firestore :=
  match fs.err with
  | some e => .error e
  | none =>
      match lookupKV fs.docs (c, d) with
      | some old =>
          .ok { fs with docs := storeInsert fs.docs (c, d) (mergeUpdate old updates) }
      | none => .error (.firebaseErr "No document to update")

/-- Modelled from the spec: `update_document` follows the same precondition
pattern as `set_document` and `get_document` (initialized check, argument
check, `get_collection` around the provider call, every exception caught and
turned into `False`), applying the merge-semantics provider update. -/
def FirebaseService.update_document (svc : FirebaseService)
    (collection_name : PyName) (document_id : String) (updates : PyData) :
    FirebaseService × Bool × List LogEntry :=
  if !svc.initialized then
    (svc, false, [⟨.error, "Firebase not initialized"⟩])
  else if !updates.truthy || !updates.isDict then
    (svc, false, [⟨.error, "Updates must be a non-empty dictionary"⟩])
  else
    match FirebaseService.get_collection svc collection_name
        (fun fs s => Firestore.docUpdate fs s document_id updates.asDict) with
    | (.ok fs2, logs) =>
        ({ svc with db := some fs2 }, true,
         logs ++ [⟨.info, "Document " ++ document_id ++ " updated"⟩])
    | (.error _, logs) =>
        (svc, false,
         logs ++ [⟨.error, "Failed to update document " ++ document_id⟩])

/-- The class-level state of the singleton: `FirebaseService._instance` and
`FirebaseService._initialized`. -/
structure ClassState where
  inst : Option FirebaseService
  cls_initialized : Bool
deriving DecidableEq

/-- Embeds the Python construction `FirebaseService()`: `__new__` returns the
stored instance, creating it the first time, then `__init__` runs its body
only when the class flag `_initialized` is still false, setting the default
fields and raising the flag. -/
def construct (cs : ClassState) : ClassState × FirebaseService :=
  let obj : FirebaseService :=
    match cs.inst with
    | none => { db := none, initialized := false, service_account_path := none }
    | some i => i
  if cs.cls_initialized then
    ({ cs with inst := some obj }, obj)
  else
    let obj2 : FirebaseService :=
      { db := none, initialized := false, service_account_path := none }
    ({ inst := some obj2, cls_initialized := true }, obj2)

/-- Well-formedness of a service state: whenever the initialized flag is set,
a client handle is stored. Holds for the freshly constructed object and is
preserved by every operation. -/
def FirebaseService.WF (svc : FirebaseService) : Prop :=
  svc.initialized = true → svc.db.isSome = true

/-! ## Helper lemmas -/

theorem lookupKV_cons {κ α : Type} [DecidableEq κ] (k0 : κ) (v : α)
    (rest : List (κ × α)) (key : κ) :
    lookupKV ((k0, v) :: rest) key = if key = k0 then some v else lookupKV rest key := rfl

theorem lookupKV_append {κ α : Type} [DecidableEq κ] (a b : List (κ × α)) (key : κ) :
    lookupKV (a ++ b) key = (lookupKV a key).orElse (fun _ => lookupKV b key) := by
  induction a with
  | nil => rfl
  | cons hd tl ih =>
      obtain ⟨k0, v⟩ := hd
      by_cases h : key = k0 <;> simp [lookupKV, h, ih, Option.orElse]

theorem lookupKV_filter_of_none (d u : Dict) (key : String)
    (h : lookupKV u key = none) :
    lookupKV (d.filter fun kv => (lookupKV u kv.1).isNone) key = lookupKV d key := by
  induction d with
  | nil => rfl
  | cons hd tl ih =>
      obtain ⟨k0, v⟩ := hd
      by_cases hk : key = k0
      · subst hk
        have : (lookupKV u key).isNone = true := by simp [h]
        simp [List.filter, this, lookupKV]
      · by_cases hf : (lookupKV u k0).isNone = true <;>
          simp [List.filter, hf, lookupKV, hk, ih]

theorem mergeUpdate_lookup (d u : Dict) (key : String) :
    lookupKV (mergeUpdate d u) key =
      match lookupKV u key with
      | some v => some v
      | none => lookupKV d key := by
  unfold mergeUpdate
  rw [lookupKV_append]
  cases h : lookupKV u key with
  | some v => simp [Option.orElse]
  | none => simp [Option.orElse, lookupKV_filter_of_none d u key h]

theorem initConn_state (svc : FirebaseService) (env : Env) (p : String) :
    (svc.initConn env p).1 = svc
    ∨ (svc.initConn env p).1 = ⟨some env.connStore, true, some p⟩ := by
  unfold FirebaseService.initConn
  rcases hf : lookupKV env.files p with _ | content
  · exact Or.inl rfl
  · by_cases hr : p ∈ env.unreadable
    · simp [hr]
    · cases content with
      | malformed => simp [hr]
      | parsed obj =>
          rcases hg : required_fields.find? (fun f => (lookupKV obj f).isNone) with _ | g
          · cases hc : env.connectOk <;> simp [hr, hg, hc]
          · simp [hr, hg]

theorem set_document_state (svc : FirebaseService) (cn : PyName) (d : String)
    (data : PyData) :
    (svc.set_document cn d data).1 = svc
    ∨ ∃ fs2, (svc.set_document cn d data).1 = { svc with db := some fs2 } := by
  unfold FirebaseService.set_document
  cases hI : svc.initialized
  · simp
  · cases hd : (!data.truthy || !data.isDict)
    · rcases hgc : FirebaseService.get_collection svc cn
          (fun fs s => Firestore.docSet fs s d data.asDict) with ⟨r, logs⟩
      cases r with
      | ok fs2 => right; exact ⟨fs2, by simp [hd, hgc]⟩
      | error e => left; simp [hd, hgc]
    · simp [hd]

theorem update_document_state (svc : FirebaseService) (cn : PyName) (d : String)
    (updates : PyData) :
    (svc.update_document cn d updates).1 = svc
    ∨ ∃ fs2, (svc.update_document cn d updates).1 = { svc with db := some fs2 } := by
  unfold FirebaseService.update_document
  cases hI : svc.initialized
  · simp
  · cases hd : (!updates.truthy || !updates.isDict)
    · rcases hgc : FirebaseService.get_collection svc cn
          (fun fs s => Firestore.docUpdate fs s d updates.asDict) with ⟨r, logs⟩
      cases r with
      | ok fs2 => right; exact ⟨fs2, by simp [hd, hgc]⟩
      | error e => left; simp [hd, hgc]
    · simp [hd]

theorem get_collection_invalid_name {α : Type} (svc : FirebaseService)
    (cn : PyName) (body : Firestore → String → Except ProviderErr α)
    (fs : Firestore) (hdb : svc.db = some fs) (hI : svc.initialized = true)
    (hcn : cn.truthy = false ∨ cn.isStr = false) :
    svc.get_collection cn body =
      (Except.error (PyExn.valueError "collection_name must be a non-empty string"),
       []) := by
  unfold FirebaseService.get_collection
  rw [hdb]
  cases cn with
  | nonStr b => simp [hI]
  | pstr s =>
      have hs : s.isEmpty = true := by
        rcases hcn with h | h
        · simpa [PyName.truthy] using h
        · simp [PyName.isStr] at h
      simp [hI, hs]

theorem get_collection_body_error {α : Type} (svc : FirebaseService) (s : String)
    (body : Firestore → String → Except ProviderErr α) (fs : Firestore)
    (e : ProviderErr) (hdb : svc.db = some fs) (hI : svc.initialized = true)
    (hs : s.isEmpty = false) (hbody : body fs s = Except.error e) :
    svc.get_collection (PyName.pstr s) body =
      (Except.error (PyExn.provider e),
       [⟨LogLevel.error, "Error accessing collection " ++ s⟩]) := by
  unfold FirebaseService.get_collection
  rw [hdb]
  simp [hI, hs, hbody]

/-! ## Claim theorems -/

/-- C10: every construction of `FirebaseService()` returns the stored
singleton object and raises the class flag; once the class flag is set
(which the very first construction does), the initializer body is skipped,
so a later construction returns the stored instance with `db`,
`initialized` and the credentials path untouched. -/
theorem c10_singleton_construction :
    (∀ i : FirebaseService,
      construct ⟨some i, true⟩ = (⟨some i, true⟩, i))
    ∧ construct ⟨none, false⟩ =
        (⟨some ⟨none, false, none⟩, true⟩, ⟨none, false, none⟩)
    ∧ ∀ cs : ClassState,
        (construct cs).1.inst = some (construct cs).2
        ∧ (construct cs).1.cls_initialized = true := by
  refine ⟨fun i => rfl, rfl, fun cs => ?_⟩
  obtain ⟨inst0, flag⟩ := cs
  cases inst0 <;> cases flag <;> simp [construct]

/-- C6: `set_document` with an empty data mapping, or a non-dict value,
returns failure with the instance state (hence the store and the handle)
unchanged: the provider set call is never reached. -/
theorem c6_set_empty_data_no_write (svc : FirebaseService) (cn : PyName)
    (d : String) (data : PyData)
    (h : data.truthy = false ∨ data.isDict = false) :
    (svc.set_document cn d data).1 = svc
    ∧ (svc.set_document cn d data).2.1 = false := by
  unfold FirebaseService.set_document
  cases hI : svc.initialized with
  | false => simp
  | true =>
      have hd : (!data.truthy || !data.isDict) = true := by
        rcases h with h | h <;> simp [h]
      simp [hd]

/-- Witness for C6 at a concrete empty dict. -/
theorem c6_set_empty_data_no_write_witness :
    ((⟨some ⟨[], none⟩, true, some "p"⟩ : FirebaseService).set_document
        (PyName.pstr "c") "d" (PyData.pdict [])).1 =
      (⟨some ⟨[], none⟩, true, some "p"⟩ : FirebaseService)
    ∧ ((⟨some ⟨[], none⟩, true, some "p"⟩ : FirebaseService).set_document
        (PyName.pstr "c") "d" (PyData.pdict [])).2.1 = false :=
  c6_set_empty_data_no_write _ _ _ _ (Or.inl rfl)

/-- C2: for a credentials file that parses to an object missing at least one
of the eight required fields, `initialize` returns failure and leaves the
instance state unchanged (in particular an unset `initialized` flag stays
false and no handle is stored). -/
theorem c2_missing_field_no_init (svc : FirebaseService) (env : Env)
    (p : String) (obj : Dict)
    (hfile : lookupKV env.files p = some (FileContent.parsed obj))
    (hmiss : ∃ f, f ∈ required_fields ∧ lookupKV obj f = none) :
    (svc.initConn env p).1 = svc ∧ (svc.initConn env p).2.1 = false := by
  unfold FirebaseService.initConn
  rw [hfile]
  by_cases hr : p ∈ env.unreadable
  · simp [hr]
  · have hfind : (required_fields.find? fun f => (lookupKV obj f).isNone).isSome := by
      rw [List.find?_isSome]
      obtain ⟨f, hmem, hnone⟩ := hmiss
      exact ⟨f, hmem, by simp [hnone]⟩
    obtain ⟨g, hg⟩ := Option.isSome_iff_exists.mp hfind
    simp [hr, hg]

/-- Witness for C2: a parsed credentials object holding only `type`. -/
theorem c2_missing_field_no_init_witness :
    ((⟨none, false, none⟩ : FirebaseService).initConn
        ⟨[("p", FileContent.parsed [("type", JValue.jstr "sa")])], [], true, ⟨[], none⟩⟩
        "p").1 = (⟨none, false, none⟩ : FirebaseService)
    ∧ ((⟨none, false, none⟩ : FirebaseService).initConn
        ⟨[("p", FileContent.parsed [("type", JValue.jstr "sa")])], [], true, ⟨[], none⟩⟩
        "p").2.1 = false :=
  c2_missing_field_no_init _ _ _ _ rfl
    ⟨"project_id", by simp [required_fields], rfl⟩

/-- C7: for a path that does not name an existing, readable file,
`initialize` fails with the state unchanged, whatever the filesystem holds
elsewhere — the existence and readability checks precede any parsing, and
the quantification over the environment makes the result independent of
any content the path may carry. -/
theorem c7_unreadable_no_parse (svc : FirebaseService) (env : Env) (p : String)
    (h : lookupKV env.files p = none ∨ p ∈ env.unreadable) :
    (svc.initConn env p).1 = svc
    ∧ (svc.initConn env p).2.1 = false
    ∧ ∃ m, (svc.initConn env p).2.2 = [⟨LogLevel.error, m⟩] := by
  unfold FirebaseService.initConn
  rcases h with h | h
  · rw [h]; exact ⟨rfl, rfl, _, rfl⟩
  · cases hf : lookupKV env.files p with
    | none => exact ⟨rfl, rfl, _, rfl⟩
    | some content => simp [h]

/-- Witness for C7: a nonexistent path and an existing but unreadable one. -/
theorem c7_unreadable_no_parse_witness :
    ((⟨none, false, none⟩ : FirebaseService).initConn
        ⟨[("p", FileContent.malformed)], ["p"], true, ⟨[], none⟩⟩ "p").1 =
      (⟨none, false, none⟩ : FirebaseService)
    ∧ ((⟨none, false, none⟩ : FirebaseService).initConn
        ⟨[("p", FileContent.malformed)], ["p"], true, ⟨[], none⟩⟩ "p").2.1 = false
    ∧ ∃ m, ((⟨none, false, none⟩ : FirebaseService).initConn
        ⟨[("p", FileContent.malformed)], ["p"], true, ⟨[], none⟩⟩ "p").2.2 =
        [⟨LogLevel.error, m⟩] :=
  c7_unreadable_no_parse _ _ _ (Or.inr (by simp))

/-- C9: once the state is initialized (with a stored handle, as every
successful initialization guarantees), no state-returning operation of the
module — `initialize`, `set_document`, `update_document` — ever resets the
initialized flag or clears the stored handle; `get_collection` and
`get_document` assign no instance field at all, which the embedding records
by giving them state-free return types. -/
theorem c9_initialized_monotone (svc : FirebaseService) (env : Env) (p : String)
    (cn : PyName) (d : String) (data updates : PyData)
    (hinit : svc.initialized = true) (hwf : svc.WF) :
    ((svc.initConn env p).1.initialized = true
      ∧ ((svc.initConn env p).1.db).isSome = true)
    ∧ ((svc.set_document cn d data).1.initialized = true
      ∧ ((svc.set_document cn d data).1.db).isSome = true)
    ∧ ((svc.update_document cn d updates).1.initialized = true
      ∧ ((svc.update_document cn d updates).1.db).isSome = true) := by
  have hdb := hwf hinit
  refine ⟨?_, ?_, ?_⟩
  · rcases initConn_state svc env p with h | h <;> rw [h]
    · exact ⟨hinit, hdb⟩
    · exact ⟨rfl, rfl⟩
  · rcases set_document_state svc cn d data with h | ⟨fs2, h⟩ <;> rw [h]
    · exact ⟨hinit, hdb⟩
    · exact ⟨hinit, rfl⟩
  · rcases update_document_state svc cn d updates with h | ⟨fs2, h⟩ <;> rw [h]
    · exact ⟨hinit, hdb⟩
    · exact ⟨hinit, rfl⟩

/-- Witness for C9 at a concrete initialized state. -/
theorem c9_initialized_monotone_witness :
    (((⟨some ⟨[], none⟩, true, some "p"⟩ : FirebaseService).initConn
        ⟨[], [], true, ⟨[], none⟩⟩ "q").1.initialized = true
      ∧ (((⟨some ⟨[], none⟩, true, some "p"⟩ : FirebaseService).initConn
        ⟨[], [], true, ⟨[], none⟩⟩ "q").1.db).isSome = true)
    ∧ (((⟨some ⟨[], none⟩, true, some "p"⟩ : FirebaseService).set_document
        (PyName.pstr "c") "d" (PyData.pdict [("k", JValue.jnull)])).1.initialized = true
      ∧ (((⟨some ⟨[], none⟩, true, some "p"⟩ : FirebaseService).set_document
        (PyName.pstr "c") "d" (PyData.pdict [("k", JValue.jnull)])).1.db).isSome = true)
    ∧ (((⟨some ⟨[], none⟩, true, some "p"⟩ : FirebaseService).update_document
        (PyName.pstr "c") "d" (PyData.pdict [("k", JValue.jnull)])).1.initialized = true
      ∧ (((⟨some ⟨[], none⟩, true, some "p"⟩ : FirebaseService).update_document
        (PyName.pstr "c") "d" (PyData.pdict [("k", JValue.jnull)])).1.db).isSome = true) :=
  c9_initialized_monotone _ _ _ _ _ _ _ rfl (fun _ => rfl)

/-- C4: `get_document` yields the same absent value `none` in all three
non-success cases — not initialized (with an error log), provider-side
failure (with error logs), and document not present (with a warning log) —
so the caller-visible value never distinguishes them; in particular a
document never written reads back as absent, not as an error. -/
theorem c4_get_absent_uniform (svc : FirebaseService) (cn : PyName) (d : String) :
    (svc.initialized = false →
      svc.get_document cn d = (none, [⟨LogLevel.error, "Firebase not initialized"⟩]))
    ∧ (∀ fs pe s, svc.initialized = true → svc.db = some fs → fs.err = some pe →
        cn = PyName.pstr s → s.isEmpty = false →
        svc.get_document cn d =
          (none, [⟨LogLevel.error, "Error accessing collection " ++ s⟩,
                  ⟨LogLevel.error, "Failed to get document " ++ d⟩]))
    ∧ (∀ fs s, svc.initialized = true → svc.db = some fs → fs.err = none →
        cn = PyName.pstr s → s.isEmpty = false →
        lookupKV fs.docs (s, d) = none →
        svc.get_document cn d =
          (none, [⟨LogLevel.warning, "Document " ++ d ++ " not found"⟩])) := by
  refine ⟨fun h => by simp [FirebaseService.get_document, h], ?_, ?_⟩
  · intro fs pe s hI hdb herr hcn hs
    subst hcn
    simp [FirebaseService.get_document, FirebaseService.get_collection,
      Firestore.docGet, hI, hdb, herr, hs]
  · intro fs s hI hdb herr hcn hs hlk
    subst hcn
    simp [FirebaseService.get_document, FirebaseService.get_collection,
      Firestore.docGet, hI, hdb, herr, hs, hlk]

/-- Witness for C4: the three cases run at concrete states. -/
theorem c4_get_absent_uniform_witness :
    (⟨none, false, none⟩ : FirebaseService).get_document (PyName.pstr "c") "d" =
      (none, [⟨LogLevel.error, "Firebase not initialized"⟩])
    ∧ (⟨some ⟨[], some (ProviderErr.genericErr "boom")⟩, true, some "p"⟩ :
        FirebaseService).get_document (PyName.pstr "c") "d" =
      (none, [⟨LogLevel.error, "Error accessing collection " ++ "c"⟩,
              ⟨LogLevel.error, "Failed to get document " ++ "d"⟩])
    ∧ (⟨some ⟨[], none⟩, true, some "p"⟩ : FirebaseService).get_document
        (PyName.pstr "c") "d" =
      (none, [⟨LogLevel.warning, "Document " ++ "d" ++ " not found"⟩]) :=
  ⟨(c4_get_absent_uniform ⟨none, false, none⟩ (PyName.pstr "c") "d").1 rfl,
   (c4_get_absent_uniform ⟨some ⟨[], some (ProviderErr.genericErr "boom")⟩, true, some "p"⟩
      (PyName.pstr "c") "d").2.1 ⟨[], some (ProviderErr.genericErr "boom")⟩
      (ProviderErr.genericErr "boom") "c" rfl rfl rfl rfl rfl,
   (c4_get_absent_uniform ⟨some ⟨[], none⟩, true, some "p"⟩
      (PyName.pstr "c") "d").2.2 ⟨[], none⟩ "c" rfl rfl rfl rfl rfl rfl⟩

/-- C5: scoped collection access raises `RuntimeError` exactly when the
manager is not initialized; once initialized, it raises `ValueError` exactly
when the collection name is empty or not a string; and a provider error
raised while the handle is open is logged and re-raised to the caller.
The well-formedness hypothesis records that an initialized state carries a
handle, which every reachable state satisfies. -/
theorem c5_get_collection_contract {α : Type} (svc : FirebaseService)
    (cn : PyName) (body : Firestore → String → Except ProviderErr α)
    (hwf : svc.WF) :
    ((∃ m, (svc.get_collection cn body).1 = Except.error (PyExn.runtimeError m))
        ↔ svc.initialized = false)
    ∧ (svc.initialized = true →
        ((∃ m, (svc.get_collection cn body).1 = Except.error (PyExn.valueError m))
          ↔ (cn.truthy = false ∨ cn.isStr = false)))
    ∧ (∀ fs s e, svc.initialized = true → svc.db = some fs →
        cn = PyName.pstr s → s.isEmpty = false → body fs s = Except.error e →
        svc.get_collection cn body =
          (Except.error (PyExn.provider e),
           [⟨LogLevel.error, "Error accessing collection " ++ s⟩])) := by
  obtain ⟨db, init, path⟩ := svc
  cases init with
  | false =>
      refine ⟨⟨fun _ => rfl, fun _ => ?_⟩,
        fun h => Bool.noConfusion h,
        fun fs s e hI _ _ _ _ => Bool.noConfusion hI⟩
      cases db <;>
        exact ⟨"Firebase not initialized. Call initialize() first.", rfl⟩
  | true =>
      have hdb : db.isSome = true := hwf rfl
      rcases db with _ | fs
      · exact absurd hdb (by simp)
      refine ⟨?_, ?_, ?_⟩
      · constructor
        · rintro ⟨m, hm⟩
          cases cn with
          | nonStr b => simp [FirebaseService.get_collection] at hm
          | pstr s =>
              cases hs : s.isEmpty <;>
                simp [FirebaseService.get_collection, hs] at hm
              rcases hb : body fs s with a | e <;> rw [hb] at hm <;> simp at hm
        · intro h; exact Bool.noConfusion h
      · intro _
        cases cn with
        | nonStr b =>
            exact ⟨fun _ => Or.inr rfl,
              fun _ => ⟨"collection_name must be a non-empty string", rfl⟩⟩
        | pstr s =>
            cases hs : s.isEmpty with
            | true =>
                refine ⟨fun _ => Or.inl ?_, fun _ => ?_⟩
                · simp [PyName.truthy, hs]
                · exact ⟨"collection_name must be a non-empty string",
                    by simp [FirebaseService.get_collection, hs]⟩
            | false =>
                constructor
                · rintro ⟨m, hm⟩
                  simp [FirebaseService.get_collection, hs] at hm
                  rcases hb : body fs s with a | e <;> rw [hb] at hm <;> simp at hm
                · rintro (h | h)
                  · simp [PyName.truthy, hs] at h
                  · simp [PyName.isStr] at h
      · rintro fs' s e hI hdb hcn hs hbody
        obtain rfl : fs = fs' := by injection hdb
        subst hcn
        simp [FirebaseService.get_collection, hs, hbody]

/-- A concrete block body whose provider call always fails, used by the C5
witness. -/
def failBody : Firestore → String → Except ProviderErr Firestore :=
  fun _ _ => Except.error (ProviderErr.firebaseErr "down")

/-- Witness for C5 at a concrete initialized state with a failing provider. -/
theorem c5_get_collection_contract_witness :
    (((∃ m, ((⟨some ⟨[], none⟩, true, some "p"⟩ : FirebaseService).get_collection
          (PyName.pstr "c") failBody).1 =
        Except.error (PyExn.runtimeError m))
      ↔ (⟨some ⟨[], none⟩, true, some "p"⟩ : FirebaseService).initialized = false))
    ∧ ((⟨some ⟨[], none⟩, true, some "p"⟩ : FirebaseService).initialized = true →
        ((∃ m, ((⟨some ⟨[], none⟩, true, some "p"⟩ : FirebaseService).get_collection
            (PyName.pstr "c") failBody).1 =
          Except.error (PyExn.valueError m))
          ↔ ((PyName.pstr "c").truthy = false ∨ (PyName.pstr "c").isStr = false)))
    ∧ (∀ fs s e, (⟨some ⟨[], none⟩, true, some "p"⟩ : FirebaseService).initialized = true →
        (⟨some ⟨[], none⟩, true, some "p"⟩ : FirebaseService).db = some fs →
        PyName.pstr "c" = PyName.pstr s → s.isEmpty = false →
        failBody fs s = Except.error e →
        (⟨some ⟨[], none⟩, true, some "p"⟩ : FirebaseService).get_collection
          (PyName.pstr "c") failBody =
          (Except.error (PyExn.provider e),
           [⟨LogLevel.error, "Error accessing collection " ++ s⟩])) :=
  c5_get_collection_contract ⟨some ⟨[], none⟩, true, some "p"⟩ (PyName.pstr "c")
    failBody (fun _ => rfl)

/-- C3: the top-level methods never let an exception escape — their
embeddings return plain sentinel values — and every non-success cause is
converted to the failure sentinel with a log entry: calls before a
successful initialization, wrong-shaped data, an invalid collection name
(whose `ValueError` from `get_collection` is swallowed by the catch-all of
the convenience method), a pending provider error, and every failing
initialization, which also leaves the state unchanged. -/
theorem c3_errors_to_sentinels (svc : FirebaseService) (cn : PyName) (d : String)
    (data updates : PyData) (env : Env) (p : String) :
    (svc.initialized = false →
      svc.set_document cn d data =
        (svc, false, [⟨LogLevel.error, "Firebase not initialized"⟩])
      ∧ svc.get_document cn d =
        (none, [⟨LogLevel.error, "Firebase not initialized"⟩])
      ∧ svc.update_document cn d updates =
        (svc, false, [⟨LogLevel.error, "Firebase not initialized"⟩]))
    ∧ (svc.initialized = true → data.truthy = false ∨ data.isDict = false →
        svc.set_document cn d data =
          (svc, false, [⟨LogLevel.error, "Data must be a non-empty dictionary"⟩]))
    ∧ (svc.initialized = true → svc.WF → cn.truthy = false ∨ cn.isStr = false →
        ((svc.set_document cn d data).1 = svc
          ∧ (svc.set_document cn d data).2.1 = false)
        ∧ (svc.get_document cn d).1 = none
        ∧ ((svc.update_document cn d updates).1 = svc
          ∧ (svc.update_document cn d updates).2.1 = false))
    ∧ (∀ fs pe s, svc.initialized = true → svc.db = some fs → fs.err = some pe →
        cn = PyName.pstr s → s.isEmpty = false →
        ((svc.set_document cn d data).1 = svc
          ∧ (svc.set_document cn d data).2.1 = false)
        ∧ (svc.get_document cn d).1 = none
        ∧ ((svc.update_document cn d updates).1 = svc
          ∧ (svc.update_document cn d updates).2.1 = false))
    ∧ ((svc.initConn env p).2.1 = false →
        (svc.initConn env p).1 = svc ∧ (svc.initConn env p).2.2 ≠ []) := by
  refine ⟨?_, ?_, ?_, ?_, ?_⟩
  · intro h
    exact ⟨by simp [FirebaseService.set_document, h],
      by simp [FirebaseService.get_document, h],
      by simp [FirebaseService.update_document, h]⟩
  · intro hI hd
    have hd' : (!data.truthy || !data.isDict) = true := by
      rcases hd with h | h <;> simp [h]
    simp [FirebaseService.set_document, hI, hd']
  · intro hI hwf hcn
    have hdb := hwf hI
    rcases hdbv : svc.db with _ | fs
    · rw [hdbv] at hdb; simp at hdb
    refine ⟨?_, ?_, ?_⟩
    · cases hd : (!data.truthy || !data.isDict)
      · constructor <;>
          simp [FirebaseService.set_document, hI, hd,
            get_collection_invalid_name svc cn
              (fun fs s => Firestore.docSet fs s d data.asDict) fs hdbv hI hcn]
      · constructor <;> simp [FirebaseService.set_document, hI, hd]
    · simp [FirebaseService.get_document, hI,
        get_collection_invalid_name svc cn
          (fun fs s => Firestore.docGet fs s d) fs hdbv hI hcn]
    · cases hd : (!updates.truthy || !updates.isDict)
      · constructor <;>
          simp [FirebaseService.update_document, hI, hd,
            get_collection_invalid_name svc cn
              (fun fs s => Firestore.docUpdate fs s d updates.asDict) fs hdbv hI hcn]
      · constructor <;> simp [FirebaseService.update_document, hI, hd]
  · intro fs pe s hI hdb herr hcn hs
    subst hcn
    have hbset : Firestore.docSet fs s d data.asDict = Except.error pe := by
      simp [Firestore.docSet, herr]
    have hbget : Firestore.docGet fs s d = Except.error pe := by
      simp [Firestore.docGet, herr]
    have hbupd : Firestore.docUpdate fs s d updates.asDict = Except.error pe := by
      simp [Firestore.docUpdate, herr]
    refine ⟨?_, ?_, ?_⟩
    · cases hd : (!data.truthy || !data.isDict)
      · constructor <;>
          simp [FirebaseService.set_document, hI, hd,
            get_collection_body_error svc s
              (fun fs s => Firestore.docSet fs s d data.asDict) fs pe hdb hI hs hbset]
      · constructor <;> simp [FirebaseService.set_document, hI, hd]
    · simp [FirebaseService.get_document, hI,
        get_collection_body_error svc s
          (fun fs s => Firestore.docGet fs s d) fs pe hdb hI hs hbget]
    · cases hd : (!updates.truthy || !updates.isDict)
      · constructor <;>
          simp [FirebaseService.update_document, hI, hd,
            get_collection_body_error svc s
              (fun fs s => Firestore.docUpdate fs s d updates.asDict) fs pe hdb hI hs hbupd]
      · constructor <;> simp [FirebaseService.update_document, hI, hd]
  · intro h
    unfold FirebaseService.initConn at h ⊢
    rcases hf : lookupKV env.files p with _ | content
    · exact ⟨rfl, by simp⟩
    · by_cases hr : p ∈ env.unreadable
      · exact ⟨by simp [hr], by simp [hr]⟩
      · cases content with
        | malformed => exact ⟨by simp [hr], by simp [hr]⟩
        | parsed obj =>
            rcases hg : required_fields.find? (fun f => (lookupKV obj f).isNone)
                with _ | g
            · cases hc : env.connectOk
              · exact ⟨by simp [hr, hg, hc], by simp [hr, hg, hc]⟩
              · simp [hf, hr, hg, hc] at h
            · exact ⟨by simp [hr, hg], by simp [hr, hg]⟩

/-- Witness for C3 across its cases at concrete states. -/
theorem c3_errors_to_sentinels_witness :
    ((⟨none, false, none⟩ : FirebaseService).set_document (PyName.pstr "c") "d"
        (PyData.pdict [("k", JValue.jnull)]) =
      ((⟨none, false, none⟩ : FirebaseService), false,
        [⟨LogLevel.error, "Firebase not initialized"⟩]))
    ∧ ((⟨some ⟨[], none⟩, true, some "p"⟩ : FirebaseService).set_document
        (PyName.pstr "c") "d" (PyData.nonDict true) =
      ((⟨some ⟨[], none⟩, true, some "p"⟩ : FirebaseService), false,
        [⟨LogLevel.error, "Data must be a non-empty dictionary"⟩]))
    ∧ ((⟨some ⟨[], none⟩, true, some "p"⟩ : FirebaseService).get_document
        (PyName.pstr "") "d").1 = none
    ∧ ((⟨some ⟨[], some (ProviderErr.firebaseErr "down")⟩, true, some "p"⟩ :
          FirebaseService).update_document (PyName.pstr "c") "d"
        (PyData.pdict [("k", JValue.jnull)])).2.1 = false
    ∧ ((⟨none, false, none⟩ : FirebaseService).initConn
        ⟨[], [], true, ⟨[], none⟩⟩ "p").2.2 ≠ [] := by
  have h1 := (c3_errors_to_sentinels ⟨none, false, none⟩ (PyName.pstr "c") "d"
    (PyData.pdict [("k", JValue.jnull)]) (PyData.pdict [("k", JValue.jnull)])
    ⟨[], [], true, ⟨[], none⟩⟩ "p").1 rfl
  have h2 := (c3_errors_to_sentinels ⟨some ⟨[], none⟩, true, some "p"⟩
    (PyName.pstr "c") "d" (PyData.nonDict true) (PyData.nonDict true)
    ⟨[], [], true, ⟨[], none⟩⟩ "p").2.1 rfl (Or.inr rfl)
  have h3 := (c3_errors_to_sentinels ⟨some ⟨[], none⟩, true, some "p"⟩
    (PyName.pstr "") "d" (PyData.pdict [("k", JValue.jnull)])
    (PyData.pdict [("k", JValue.jnull)])
    ⟨[], [], true, ⟨[], none⟩⟩ "p").2.2.1 rfl (fun _ => rfl) (Or.inl rfl)
  have h4 := (c3_errors_to_sentinels
    ⟨some ⟨[], some (ProviderErr.firebaseErr "down")⟩, true, some "p"⟩
    (PyName.pstr "c") "d" (PyData.pdict [("k", JValue.jnull)])
    (PyData.pdict [("k", JValue.jnull)])
    ⟨[], [], true, ⟨[], none⟩⟩ "p").2.2.2.1
    ⟨[], some (ProviderErr.firebaseErr "down")⟩ (ProviderErr.firebaseErr "down")
    "c" rfl rfl rfl rfl rfl
  have h5 := (c3_errors_to_sentinels ⟨none, false, none⟩ (PyName.pstr "c") "d"
    (PyData.pdict [("k", JValue.jnull)]) (PyData.pdict [("k", JValue.jnull)])
    ⟨[], [], true, ⟨[], none⟩⟩ "p").2.2.2.2 rfl
  exact ⟨h1.1, h2, h3.2.1, h4.2.2.2, h5.2⟩

/-- C1: after a successful initialization, a `set_document` call that
returns success, followed by `get_document` on the same collection name and
document id, returns exactly the data that was written. -/
theorem c1_set_then_get (svc0 svc svc' : FirebaseService) (env : Env)
    (p : String) (logs0 logs : List LogEntry) (cn : PyName) (d : String)
    (data : PyData)
    (_hinit : svc0.initConn env p = (svc, true, logs0))
    (hset : svc.set_document cn d data = (svc', true, logs)) :
    (svc'.get_document cn d).1 = some data.asDict := by
  clear _hinit
  unfold FirebaseService.set_document at hset
  cases hI : svc.initialized
  · simp [hI] at hset
  cases hdt : data.truthy
  · simp [hI, hdt] at hset
  cases hdd : data.isDict
  · simp [hI, hdt, hdd] at hset
  rcases hdb : svc.db with _ | fs
  · simp [hI, hdt, hdd, FirebaseService.get_collection, hdb] at hset
  cases cn with
  | nonStr b => simp [hI, hdt, hdd, FirebaseService.get_collection, hdb] at hset
  | pstr s =>
      cases hs : s.isEmpty
      · cases herr : fs.err
        · simp only [hI, hdt, hdd, FirebaseService.get_collection, hdb, hs,
            Firestore.docSet, herr, Bool.not_true, Bool.or_self,
            Bool.false_eq_true, if_false, ite_false, Bool.not_false] at hset
          have hsvc' : (⟨some ⟨storeInsert fs.docs (s, d) data.asDict, none⟩,
              true, svc.service_account_path⟩ : FirebaseService) = svc' := by
            have := congrArg Prod.fst hset
            simpa using this
          subst hsvc'
          simp [FirebaseService.get_document, FirebaseService.get_collection,
            Firestore.docGet, hs, storeInsert, lookupKV]
        · simp [hI, hdt, hdd, FirebaseService.get_collection, hdb, hs,
            Firestore.docSet, herr] at hset
      · simp [hI, hdt, hdd, FirebaseService.get_collection, hdb, hs] at hset

/-- Concrete service-account object holding all eight required fields, for
the C1 witness. -/
def credsW : Dict :=
  [("type", JValue.jstr "service_account"), ("project_id", JValue.jstr "acdinx"),
   ("private_key_id", JValue.jstr "kid"), ("private_key", JValue.jstr "key"),
   ("client_email", JValue.jstr "e"), ("client_id", JValue.jstr "cid"),
   ("auth_uri", JValue.jstr "a"), ("token_uri", JValue.jstr "t")]

/-- Environment for the C1 witness: the credentials file parses, all fields
present, the provider connection succeeds with an empty store. -/
def envW : Env := ⟨[("p", FileContent.parsed credsW)], [], true, ⟨[], none⟩⟩

/-- Witness for C1: a full run from an uninitialized state through a
successful initialization and a successful write, read back. -/
theorem c1_set_then_get_witness :
    ((⟨some ⟨[(("c", "d"), [("k", JValue.jstr "v")])], none⟩, true, some "p"⟩ :
        FirebaseService).get_document (PyName.pstr "c") "d").1 =
      some (PyData.pdict [("k", JValue.jstr "v")]).asDict :=
  c1_set_then_get ⟨none, false, none⟩ ⟨some ⟨[], none⟩, true, some "p"⟩
    ⟨some ⟨[(("c", "d"), [("k", JValue.jstr "v")])], none⟩, true, some "p"⟩
    envW "p" [⟨LogLevel.info, "Firebase initialized successfully"⟩]
    [⟨LogLevel.info, "Document " ++ "d" ++ " set"⟩]
    (PyName.pstr "c") "d" (PyData.pdict [("k", JValue.jstr "v")])
    (by decide) (by decide)

/-- C8 (modelled from the spec, the source body being truncated): a
successful `update_document` on an initialized connection and an existing
document with payload `D` merges: every field named in the updates carries
its new value, every other field of `D` keeps its old value. -/
theorem c8_update_merge (svc svc' : FirebaseService) (cn : PyName)
    (s d : String) (updates : PyData) (logs : List LogEntry) (fs : Firestore)
    (D : Dict)
    (hcn : cn = PyName.pstr s)
    (hdb : svc.db = some fs)
    (hD : lookupKV fs.docs (s, d) = some D)
    (hupd : svc.update_document cn d updates = (svc', true, logs)) :
    ∃ fs' newD, svc'.db = some fs'
      ∧ lookupKV fs'.docs (s, d) = some newD
      ∧ ∀ k, ((lookupKV updates.asDict k).isSome = true →
            lookupKV newD k = lookupKV updates.asDict k)
          ∧ (lookupKV updates.asDict k = none →
            lookupKV newD k = lookupKV D k) := by
  subst hcn
  unfold FirebaseService.update_document at hupd
  cases hI : svc.initialized
  · simp [hI] at hupd
  cases hdt : updates.truthy
  · simp [hI, hdt] at hupd
  cases hdd : updates.isDict
  · simp [hI, hdt, hdd] at hupd
  cases hs : s.isEmpty
  · cases herr : fs.err
    · simp only [hI, hdt, hdd, FirebaseService.get_collection, hdb, hs,
        Firestore.docUpdate, herr, hD, Bool.not_true, Bool.or_self,
        Bool.false_eq_true, if_false, ite_false, Bool.not_false] at hupd
      have hsvc' : (⟨some ⟨storeInsert fs.docs (s, d) (mergeUpdate D updates.asDict), none⟩,
          true, svc.service_account_path⟩ : FirebaseService) = svc' := by
        have := congrArg Prod.fst hupd
        simpa using this
      subst hsvc'
      refine ⟨_, mergeUpdate D updates.asDict, rfl, by simp [storeInsert, lookupKV], ?_⟩
      intro k
      constructor
      · intro hk
        rw [mergeUpdate_lookup]
        rcases h : lookupKV updates.asDict k with _ | v
        · rw [h] at hk; simp at hk
        · simp
      · intro hk
        rw [mergeUpdate_lookup, hk]
    · simp [hI, hdt, hdd, FirebaseService.get_collection, hdb, hs,
        Firestore.docUpdate, herr] at hupd
  · simp [hI, hdt, hdd, FirebaseService.get_collection, hdb, hs] at hupd

/-- Witness for C8: merging updates into an existing two-field document. -/
theorem c8_update_merge_witness :
    ∃ fs' newD,
      (⟨some ⟨[(("c", "d"),
          [("b", JValue.jnum 3), ("cc", JValue.jnum 4), ("a", JValue.jnum 1)]),
          (("c", "d"), [("a", JValue.jnum 1), ("b", JValue.jnum 2)])],
        none⟩, true, some "p"⟩ : FirebaseService).db = some fs'
      ∧ lookupKV fs'.docs ("c", "d") = some newD
      ∧ ∀ k, ((lookupKV (PyData.pdict
            [("b", JValue.jnum 3), ("cc", JValue.jnum 4)]).asDict k).isSome = true →
            lookupKV newD k =
              lookupKV (PyData.pdict
                [("b", JValue.jnum 3), ("cc", JValue.jnum 4)]).asDict k)
          ∧ (lookupKV (PyData.pdict
              [("b", JValue.jnum 3), ("cc", JValue.jnum 4)]).asDict k = none →
            lookupKV newD k =
              lookupKV [("a", JValue.jnum 1), ("b", JValue.jnum 2)] k) :=
  c8_update_merge
    ⟨some ⟨[(("c", "d"), [("a", JValue.jnum 1), ("b", JValue.jnum 2)])], none⟩,
      true, some "p"⟩
    ⟨some ⟨[(("c", "d"),
        [("b", JValue.jnum 3), ("cc", JValue.jnum 4), ("a", JValue.jnum 1)]),
        (("c", "d"), [("a", JValue.jnum 1), ("b", JValue.jnum 2)])],
      none⟩, true, some "p"⟩
    (PyName.pstr "c") "c" "d"
    (PyData.pdict [("b", JValue.jnum 3), ("cc", JValue.jnum 4)])
    [⟨LogLevel.info, "Document " ++ "d" ++ " updated"⟩]
    ⟨[(("c", "d"), [("a", JValue.jnum 1), ("b", JValue.jnum 2)])], none⟩
    [("a", JValue.jnum 1), ("b", JValue.jnum 2)]
    rfl rfl (by decide) (by decide)

end ACDINX
